import Mathlib

/-!
Shallow embedding of the versioned WASI/WASIX ABI registry layer of
`src/lib/wasi/src/lib.rs` (crate `wasmer-wasi`).

The file models:

* the per-version namespace tables (`wasi_unstable_exports`,
  `wasi_snapshot_preview1_exports`, `wasix_exports_32`, `wasix_exports_64`)
  as association lists from entry-point name to a `Binding` recording which
  Rust function the name is bound to (its path as written in the source,
  e.g. `legacy::snapshot0::fd_seek`) and, when the function is generic over
  the guest memory width, which width it is instantiated at
  (`Memory32` / `Memory64`);
* the version dispatch (`generate_import_object_from_env`) and the combined
  table (`import_object_for_all_wasi_versions`) as maps from namespace
  string to namespace;
* the two error translators `mem_error_to_wasi` and `mem_error_to_bus`;
* the calling-thread identity oracle `current_caller_id` backed by the
  `CALLER_ID_SEED` atomic `u32` counter (initialized to 1) and the
  per-thread `CALLER_ID` cell (initialized to 0), with the `u32`
  wrap-around of `fetch_add` modelled explicitly as `% 2^32`.

The bound callables themselves (`Function::new_typed_with_env(...)`) close
over a store and environment handle that is the same for every entry of a
table; the identity of a binding is therefore fully determined by the Rust
function path and the width instantiation, which is what `Binding` records.
-/

/-- Guest memory width a generic system call is instantiated at:
`wasmer::Memory32` or `wasmer::Memory64`. -/
inductive MemWidth where
  | memory32
  | memory64
deriving DecidableEq, Repr

/-- One bound entry point: the path of the Rust implementation function as
written in the source (e.g. `"fd_seek"` or `"legacy::snapshot0::fd_seek"`)
and its memory-width instantiation (`none` when the function is not generic
over the memory width). -/
structure Binding where
  impl : String
  width : Option MemWidth
deriving DecidableEq, Repr

/-- A namespace (`wasmer::Exports` built by the `namespace!` macro): an
association list from entry-point name to its binding, in source order. -/
abbrev Exports := List (String × Binding)

/-- An import table (`wasmer::Imports` built by the `imports!` macro): an
association list from ABI namespace string to its namespace. -/
abbrev Imports := List (String × Exports)

/-- Entry bound to a width-generic function instantiated at `Memory32`
(`name => f::<Memory32>` with `impl` path equal to the name). -/
def e32 (n : String) : String × Binding := (n, ⟨n, some MemWidth.memory32⟩)

/-- Entry bound to a width-generic function instantiated at `Memory64`. -/
def e64 (n : String) : String × Binding := (n, ⟨n, some MemWidth.memory64⟩)

/-- Entry bound to a non-generic function (no memory-width parameter). -/
def e0 (n : String) : String × Binding := (n, ⟨n, none⟩)

/-- Entry whose implementation path differs from its exported name
(used for the `legacy::snapshot0::*` bindings of `wasi_unstable`). -/
def eAt (n impl : String) : String × Binding := (n, ⟨impl, none⟩)

/-- The `wasi_unstable` namespace (`wasi_unstable_exports` in the source),
entries in source order. Four names are bound to `legacy::snapshot0::*`
implementations. -/
def wasi_unstable_exports : Exports := [
  e32 "args_get",
  e32 "args_sizes_get",
  e32 "clock_res_get",
  e32 "clock_time_get",
  e32 "environ_get",
  e32 "environ_sizes_get",
  e0 "fd_advise",
  e0 "fd_allocate",
  e0 "fd_close",
  e0 "fd_datasync",
  e32 "fd_fdstat_get",
  e0 "fd_fdstat_set_flags",
  e0 "fd_fdstat_set_rights",
  eAt "fd_filestat_get" "legacy::snapshot0::fd_filestat_get",
  e0 "fd_filestat_set_size",
  e0 "fd_filestat_set_times",
  e32 "fd_pread",
  e32 "fd_prestat_get",
  e32 "fd_prestat_dir_name",
  e32 "fd_pwrite",
  e32 "fd_read",
  e32 "fd_readdir",
  e0 "fd_renumber",
  eAt "fd_seek" "legacy::snapshot0::fd_seek",
  e0 "fd_sync",
  e32 "fd_tell",
  e32 "fd_write",
  e32 "path_create_directory",
  eAt "path_filestat_get" "legacy::snapshot0::path_filestat_get",
  e32 "path_filestat_set_times",
  e32 "path_link",
  e32 "path_open",
  e32 "path_readlink",
  e32 "path_remove_directory",
  e32 "path_rename",
  e32 "path_symlink",
  e32 "path_unlink_file",
  eAt "poll_oneoff" "legacy::snapshot0::poll_oneoff",
  e32 "proc_exit",
  e0 "proc_raise",
  e32 "random_get",
  e0 "sched_yield",
  e32 "sock_recv",
  e32 "sock_send",
  e0 "sock_shutdown"
]

/-- The `wasi_snapshot_preview1` namespace (`wasi_snapshot_preview1_exports`
in the source), entries in source order; all bindings are the current
implementations. -/
def wasi_snapshot_preview1_exports : Exports := [
  e32 "args_get",
  e32 "args_sizes_get",
  e32 "clock_res_get",
  e32 "clock_time_get",
  e32 "environ_get",
  e32 "environ_sizes_get",
  e0 "fd_advise",
  e0 "fd_allocate",
  e0 "fd_close",
  e0 "fd_datasync",
  e32 "fd_fdstat_get",
  e0 "fd_fdstat_set_flags",
  e0 "fd_fdstat_set_rights",
  e32 "fd_filestat_get",
  e0 "fd_filestat_set_size",
  e0 "fd_filestat_set_times",
  e32 "fd_pread",
  e32 "fd_prestat_get",
  e32 "fd_prestat_dir_name",
  e32 "fd_pwrite",
  e32 "fd_read",
  e32 "fd_readdir",
  e0 "fd_renumber",
  e32 "fd_seek",
  e0 "fd_sync",
  e32 "fd_tell",
  e32 "fd_write",
  e32 "path_create_directory",
  e32 "path_filestat_get",
  e32 "path_filestat_set_times",
  e32 "path_link",
  e32 "path_open",
  e32 "path_readlink",
  e32 "path_remove_directory",
  e32 "path_rename",
  e32 "path_symlink",
  e32 "path_unlink_file",
  e32 "poll_oneoff",
  e32 "proc_exit",
  e0 "proc_raise",
  e32 "random_get",
  e0 "sched_yield",
  e32 "sock_recv",
  e32 "sock_send",
  e0 "sock_shutdown"
]

/-- The `wasix_32v1` namespace (`wasix_exports_32` in the source), entries
in source order; width-generic entries are instantiated at `Memory32`. -/
def wasix_exports_32 : Exports := [
  e32 "args_get",
  e32 "args_sizes_get",
  e32 "clock_res_get",
  e32 "clock_time_get",
  e32 "clock_time_set",
  e32 "environ_get",
  e32 "environ_sizes_get",
  e0 "fd_advise",
  e0 "fd_allocate",
  e0 "fd_close",
  e0 "fd_datasync",
  e32 "fd_fdstat_get",
  e0 "fd_fdstat_set_flags",
  e0 "fd_fdstat_set_rights",
  e32 "fd_filestat_get",
  e0 "fd_filestat_set_size",
  e0 "fd_filestat_set_times",
  e32 "fd_pread",
  e32 "fd_prestat_get",
  e32 "fd_prestat_dir_name",
  e32 "fd_pwrite",
  e32 "fd_read",
  e32 "fd_readdir",
  e0 "fd_renumber",
  e32 "fd_dup",
  e32 "fd_event",
  e32 "fd_seek",
  e0 "fd_sync",
  e32 "fd_tell",
  e32 "fd_write",
  e32 "fd_pipe",
  e32 "path_create_directory",
  e32 "path_filestat_get",
  e32 "path_filestat_set_times",
  e32 "path_link",
  e32 "path_open",
  e32 "path_readlink",
  e32 "path_remove_directory",
  e32 "path_rename",
  e32 "path_symlink",
  e32 "path_unlink_file",
  e32 "poll_oneoff",
  e32 "proc_exit",
  e32 "proc_fork",
  e32 "proc_join",
  e32 "proc_signal",
  e32 "proc_exec",
  e0 "proc_raise",
  e0 "proc_raise_interval",
  e32 "proc_spawn",
  e32 "proc_id",
  e32 "proc_parent",
  e32 "random_get",
  e32 "tty_get",
  e32 "tty_set",
  e32 "getcwd",
  e32 "chdir",
  e32 "callback_signal",
  e32 "callback_thread",
  e32 "callback_reactor",
  e32 "callback_thread_local_destroy",
  e32 "thread_spawn",
  e32 "thread_local_create",
  e0 "thread_local_destroy",
  e0 "thread_local_set",
  e32 "thread_local_get",
  e0 "thread_sleep",
  e32 "thread_id",
  e0 "thread_signal",
  e0 "thread_join",
  e32 "thread_parallelism",
  e0 "thread_exit",
  e0 "sched_yield",
  e32 "stack_checkpoint",
  e32 "stack_restore",
  e32 "futex_wait",
  e32 "futex_wake",
  e32 "futex_wake_all",
  e32 "bus_open_local",
  e32 "bus_open_remote",
  e0 "bus_close",
  e32 "bus_call",
  e32 "bus_subcall",
  e32 "bus_poll",
  e32 "call_reply",
  e0 "call_fault",
  e0 "call_close",
  e32 "ws_connect",
  e32 "http_request",
  e32 "http_status",
  e32 "port_bridge",
  e0 "port_unbridge",
  e0 "port_dhcp_acquire",
  e32 "port_addr_add",
  e32 "port_addr_remove",
  e0 "port_addr_clear",
  e32 "port_addr_list",
  e32 "port_mac",
  e32 "port_gateway_set",
  e32 "port_route_add",
  e32 "port_route_remove",
  e0 "port_route_clear",
  e32 "port_route_list",
  e32 "sock_status",
  e32 "sock_addr_local",
  e32 "sock_addr_peer",
  e32 "sock_open",
  e0 "sock_set_opt_flag",
  e32 "sock_get_opt_flag",
  e32 "sock_set_opt_time",
  e32 "sock_get_opt_time",
  e0 "sock_set_opt_size",
  e32 "sock_get_opt_size",
  e32 "sock_join_multicast_v4",
  e32 "sock_leave_multicast_v4",
  e32 "sock_join_multicast_v6",
  e32 "sock_leave_multicast_v6",
  e32 "sock_bind",
  e32 "sock_listen",
  e32 "sock_accept",
  e32 "sock_connect",
  e32 "sock_recv",
  e32 "sock_recv_from",
  e32 "sock_send",
  e32 "sock_send_to",
  e32 "sock_send_file",
  e0 "sock_shutdown",
  e32 "resolve"
]

/-- The `wasix_64v1` namespace (`wasix_exports_64` in the source), entries
in source order; width-generic entries are instantiated at `Memory64`. -/
def wasix_exports_64 : Exports := [
  e64 "args_get",
  e64 "args_sizes_get",
  e64 "clock_res_get",
  e64 "clock_time_get",
  e64 "clock_time_set",
  e64 "environ_get",
  e64 "environ_sizes_get",
  e0 "fd_advise",
  e0 "fd_allocate",
  e0 "fd_close",
  e0 "fd_datasync",
  e64 "fd_fdstat_get",
  e0 "fd_fdstat_set_flags",
  e0 "fd_fdstat_set_rights",
  e64 "fd_filestat_get",
  e0 "fd_filestat_set_size",
  e0 "fd_filestat_set_times",
  e64 "fd_pread",
  e64 "fd_prestat_get",
  e64 "fd_prestat_dir_name",
  e64 "fd_pwrite",
  e64 "fd_read",
  e64 "fd_readdir",
  e0 "fd_renumber",
  e64 "fd_dup",
  e64 "fd_event",
  e64 "fd_seek",
  e0 "fd_sync",
  e64 "fd_tell",
  e64 "fd_write",
  e64 "fd_pipe",
  e64 "path_create_directory",
  e64 "path_filestat_get",
  e64 "path_filestat_set_times",
  e64 "path_link",
  e64 "path_open",
  e64 "path_readlink",
  e64 "path_remove_directory",
  e64 "path_rename",
  e64 "path_symlink",
  e64 "path_unlink_file",
  e64 "poll_oneoff",
  e64 "proc_exit",
  e64 "proc_fork",
  e64 "proc_join",
  e64 "proc_signal",
  e64 "proc_exec",
  e0 "proc_raise",
  e0 "proc_raise_interval",
  e64 "proc_spawn",
  e64 "proc_id",
  e64 "proc_parent",
  e64 "random_get",
  e64 "tty_get",
  e64 "tty_set",
  e64 "getcwd",
  e64 "chdir",
  e64 "callback_signal",
  e64 "callback_thread",
  e64 "callback_reactor",
  e64 "callback_thread_local_destroy",
  e64 "thread_spawn",
  e64 "thread_local_create",
  e0 "thread_local_destroy",
  e0 "thread_local_set",
  e64 "thread_local_get",
  e0 "thread_sleep",
  e64 "thread_id",
  e0 "thread_signal",
  e0 "thread_join",
  e64 "thread_parallelism",
  e0 "thread_exit",
  e0 "sched_yield",
  e64 "stack_checkpoint",
  e64 "stack_restore",
  e64 "futex_wait",
  e64 "futex_wake",
  e64 "futex_wake_all",
  e64 "bus_open_local",
  e64 "bus_open_remote",
  e0 "bus_close",
  e64 "bus_call",
  e64 "bus_subcall",
  e64 "bus_poll",
  e64 "call_reply",
  e0 "call_fault",
  e0 "call_close",
  e64 "ws_connect",
  e64 "http_request",
  e64 "http_status",
  e64 "port_bridge",
  e0 "port_unbridge",
  e0 "port_dhcp_acquire",
  e64 "port_addr_add",
  e64 "port_addr_remove",
  e0 "port_addr_clear",
  e64 "port_addr_list",
  e64 "port_mac",
  e64 "port_gateway_set",
  e64 "port_route_add",
  e64 "port_route_remove",
  e0 "port_route_clear",
  e64 "port_route_list",
  e64 "sock_status",
  e64 "sock_addr_local",
  e64 "sock_addr_peer",
  e64 "sock_open",
  e0 "sock_set_opt_flag",
  e64 "sock_get_opt_flag",
  e64 "sock_set_opt_time",
  e64 "sock_get_opt_time",
  e0 "sock_set_opt_size",
  e64 "sock_get_opt_size",
  e64 "sock_join_multicast_v4",
  e64 "sock_leave_multicast_v4",
  e64 "sock_join_multicast_v6",
  e64 "sock_leave_multicast_v6",
  e64 "sock_bind",
  e64 "sock_listen",
  e64 "sock_accept",
  e64 "sock_connect",
  e64 "sock_recv",
  e64 "sock_recv_from",
  e64 "sock_send",
  e64 "sock_send_to",
  e64 "sock_send_file",
  e0 "sock_shutdown",
  e64 "resolve"
]

/-- WASI ABI versions (`WasiVersion` in `utils`): `Snapshot0`, `Snapshot1`,
`Wasix32v1`, `Wasix64v1`, and `Latest` (handled identically to `Snapshot1`
by the dispatch). -/
inductive WasiVersion where
  | Snapshot0
  | Snapshot1
  | Wasix32v1
  | Wasix64v1
  | Latest
deriving DecidableEq, Repr

/-- Import table for legacy WASI (`generate_import_object_snapshot0`). -/
def generate_import_object_snapshot0 : Imports :=
  [("wasi_unstable", wasi_unstable_exports)]

/-- Import table for snapshot 1 (`generate_import_object_snapshot1`). -/
def generate_import_object_snapshot1 : Imports :=
  [("wasi_snapshot_preview1", wasi_snapshot_preview1_exports)]

/-- Import table for WASIX 32-bit (`generate_import_object_wasix32_v1`). -/
def generate_import_object_wasix32_v1 : Imports :=
  [("wasix_32v1", wasix_exports_32)]

/-- Import table for WASIX 64-bit (`generate_import_object_wasix64_v1`). -/
def generate_import_object_wasix64_v1 : Imports :=
  [("wasix_64v1", wasix_exports_64)]

/-- Version dispatch (`generate_import_object_from_env`): `Snapshot0` maps to
the legacy table, `Snapshot1 | Latest` to the snapshot-1 table, and the two
WASIX versions to their tables. -/
def generate_import_object_from_env : WasiVersion → Imports
  | WasiVersion.Snapshot0 => generate_import_object_snapshot0
  | WasiVersion.Snapshot1 => generate_import_object_snapshot1
  | WasiVersion.Latest => generate_import_object_snapshot1
  | WasiVersion.Wasix32v1 => generate_import_object_wasix32_v1
  | WasiVersion.Wasix64v1 => generate_import_object_wasix64_v1

/-- The combined table (`import_object_for_all_wasi_versions`): all four
namespaces, keyed by their namespace strings, in source order. -/
def import_object_for_all_wasi_versions : Imports :=
  [("wasi_unstable", wasi_unstable_exports),
   ("wasi_snapshot_preview1", wasi_snapshot_preview1_exports),
   ("wasix_32v1", wasix_exports_32),
   ("wasix_64v1", wasix_exports_64)]

/-- Guest memory access failure (`wasmer::MemoryAccessError`). The Rust enum
is `#[non_exhaustive]` with the three distinguished causes below; `Other`
stands for any further cause, which both translators send through their `_`
fallback arm. -/
inductive MemoryAccessError where
  | HeapOutOfBounds
  | Overflow
  | NonUtf8String
  | Other
deriving DecidableEq, Repr

/-- Fragment of the file/process errno enumeration
(`wasmer_wasi_types::wasi::Errno`) actually produced by `mem_error_to_wasi`. -/
inductive Errno where
  | Fault
  | Overflow
  | Inval
deriving DecidableEq, Repr

/-- Fragment of the bus errno enumeration
(`wasmer_wasi_types::wasi::BusErrno`) actually produced by `mem_error_to_bus`. -/
inductive BusErrno where
  | Memviolation
  | Badrequest
  | Unknown
deriving DecidableEq, Repr

/-- Translator to the file/process error vocabulary (`mem_error_to_wasi`). -/
def mem_error_to_wasi : MemoryAccessError → Errno
  | MemoryAccessError.HeapOutOfBounds => Errno.Fault
  | MemoryAccessError.Overflow => Errno.Overflow
  | MemoryAccessError.NonUtf8String => Errno.Inval
  | MemoryAccessError.Other => Errno.Inval

/-- Translator to the bus error vocabulary (`mem_error_to_bus`). -/
def mem_error_to_bus : MemoryAccessError → BusErrno
  | MemoryAccessError.HeapOutOfBounds => BusErrno.Memviolation
  | MemoryAccessError.Overflow => BusErrno.Memviolation
  | MemoryAccessError.NonUtf8String => BusErrno.Badrequest
  | MemoryAccessError.Other => BusErrno.Unknown

/-- Modulus of the `u32` arithmetic of the `CALLER_ID_SEED` counter:
`AtomicU32::fetch_add(1, AcqRel)` wraps at `2^32`. -/
def U32_LIMIT : Nat := 4294967296

/-- State visible to one call of `current_caller_id`: the shared
`CALLER_ID_SEED` counter (a `u32`, initialized to `1` at process start) and
the calling thread's `CALLER_ID` thread-local cell (initialized to `0`). -/
structure CallerIdState where
  seed : Nat
  cache : Nat
deriving DecidableEq, Repr

/-- One call of `current_caller_id` on a thread whose cell and the shared
counter form `s`, assuming `s.seed < 2^32` (the `u32` invariant): if the
cell is non-zero it is returned and nothing changes; otherwise
`fetch_add(1, AcqRel)` returns the old counter value (storing the wrapped
successor), the value is stored in the cell and returned. Returns the
returned id together with the updated state. -/
def current_caller_id (s : CallerIdState) : Nat × CallerIdState :=
  if s.cache = 0 then
    (s.seed, ⟨(s.seed + 1) % U32_LIMIT, s.seed⟩)
  else
    (s.cache, s)

/-- Ids handed out by `n` successive first calls of `current_caller_id` from
`n` fresh threads (each with its cell at `0`), starting from shared counter
value `seed`, in draw order. Because the only shared-state effect of a first
call is the single atomic `fetch_add`, any interleaving of the `n` threads
is one such draw order. -/
def runFreshThreads : Nat → Nat → List Nat
  | 0, _ => []
  | n + 1, seed =>
      (current_caller_id ⟨seed, 0⟩).1 ::
        runFreshThreads n (current_caller_id ⟨seed, 0⟩).2.seed

/-- Shared counter value after `n` fresh-thread first calls starting from
counter value `seed`. -/
def finalSeedAfter : Nat → Nat → Nat
  | 0, seed => seed
  | n + 1, seed => finalSeedAfter n (current_caller_id ⟨seed, 0⟩).2.seed

set_option maxRecDepth 1000000

/-- The four entry-point names of `wasi_unstable` bound to
`legacy::snapshot0::*` implementations, in table order. -/
def legacyNames : List String :=
  ["fd_filestat_get", "fd_seek", "path_filestat_get", "poll_oneoff"]

/-- Names exported by a namespace, in table order. -/
def namesOf (ns : Exports) : List String := ns.map Prod.fst

/-- Checks that every name of `a` that also appears in `b` and is not in
`except` is bound to exactly the same binding in both namespaces. -/
def sharedSameBinding (a b : Exports) (except : List String) : Bool :=
  (namesOf a).all fun n =>
    except.contains n || !(namesOf b).contains n || (a.lookup n == b.lookup n)

/-- Checks that every name of `a` that also appears in `b` and is not in
`except` is bound to the same underlying implementation (same Rust function
path) in both namespaces, the width instantiation aside. -/
def sharedSameImpl (a b : Exports) (except : List String) : Bool :=
  (namesOf a).all fun n =>
    except.contains n || !(namesOf b).contains n ||
      (match a.lookup n, b.lookup n with
       | some x, some y => x.impl == y.impl
       | _, _ => false)

/-- Width relation between a `wasix_32v1` binding and its `wasix_64v1`
counterpart: non-generic functions are reused verbatim, width-generic ones
are instantiated at `Memory32` and `Memory64` respectively. -/
def widthCounterpart : Option MemWidth → Option MemWidth → Bool
  | none, none => true
  | some MemWidth.memory32, some MemWidth.memory64 => true
  | _, _ => false

/-- Checks that every name of `wasix_32v1` is bound in `wasix_64v1` to the
same implementation with the counterpart width instantiation. -/
def wasixWidthAligned : Bool :=
  (namesOf wasix_exports_32).all fun n =>
    match wasix_exports_32.lookup n, wasix_exports_64.lookup n with
    | some x, some y => x.impl == y.impl && widthCounterpart x.width y.width
    | _, _ => false

/-- C1: for every ABI version, the import table returned by
`generate_import_object_from_env` has exactly the documented namespace key
and no other — `Snapshot0` yields only `wasi_unstable`, `Snapshot1` only
`wasi_snapshot_preview1`, `Wasix32v1` only `wasix_32v1`, `Wasix64v1` only
`wasix_64v1` — and the `Latest` table is identical to the `Snapshot1` one. -/
theorem generate_import_object_from_env_keys :
    (generate_import_object_from_env WasiVersion.Snapshot0).map Prod.fst
      = ["wasi_unstable"] ∧
    (generate_import_object_from_env WasiVersion.Snapshot1).map Prod.fst
      = ["wasi_snapshot_preview1"] ∧
    (generate_import_object_from_env WasiVersion.Wasix32v1).map Prod.fst
      = ["wasix_32v1"] ∧
    (generate_import_object_from_env WasiVersion.Wasix64v1).map Prod.fst
      = ["wasix_64v1"] ∧
    generate_import_object_from_env WasiVersion.Latest
      = generate_import_object_from_env WasiVersion.Snapshot1 :=
  ⟨rfl, rfl, rfl, rfl, rfl⟩

/-- C2: the combined table of `import_object_for_all_wasi_versions` has
exactly the four namespace keys `wasi_unstable`, `wasi_snapshot_preview1`,
`wasix_32v1`, `wasix_64v1`; its `wasix_32v1` namespace contains the entry
points `thread_spawn` and `futex_wait`, and its `wasi_unstable` namespace
contains neither. -/
theorem import_object_for_all_wasi_versions_contents :
    import_object_for_all_wasi_versions.map Prod.fst
      = ["wasi_unstable", "wasi_snapshot_preview1", "wasix_32v1", "wasix_64v1"] ∧
    import_object_for_all_wasi_versions.lookup "wasix_32v1"
      = some wasix_exports_32 ∧
    import_object_for_all_wasi_versions.lookup "wasi_unstable"
      = some wasi_unstable_exports ∧
    (namesOf wasix_exports_32).contains "thread_spawn" = true ∧
    (namesOf wasix_exports_32).contains "futex_wait" = true ∧
    (namesOf wasi_unstable_exports).contains "thread_spawn" = false ∧
    (namesOf wasi_unstable_exports).contains "futex_wait" = false := by
  refine ⟨rfl, by decide, by decide, by decide, by decide, by decide, by decide⟩

/-- C3: in `wasi_unstable`, exactly the four names `fd_filestat_get`,
`fd_seek`, `path_filestat_get`, `poll_oneoff` are bound to the
`legacy::snapshot0` implementations, which are distinct from the current
implementations bound to the same names in `wasi_snapshot_preview1`
(third conjunct: the names whose bindings differ between the two tables are
exactly those four); the two tables export the same names, and every other
shared name is bound to the same binding in both. -/
theorem wasi_unstable_legacy_bindings :
    (legacyNames.map fun n => wasi_unstable_exports.lookup n)
      = [some ⟨"legacy::snapshot0::fd_filestat_get", none⟩,
         some ⟨"legacy::snapshot0::fd_seek", none⟩,
         some ⟨"legacy::snapshot0::path_filestat_get", none⟩,
         some ⟨"legacy::snapshot0::poll_oneoff", none⟩] ∧
    (legacyNames.map fun n => wasi_snapshot_preview1_exports.lookup n)
      = [some ⟨"fd_filestat_get", some MemWidth.memory32⟩,
         some ⟨"fd_seek", some MemWidth.memory32⟩,
         some ⟨"path_filestat_get", some MemWidth.memory32⟩,
         some ⟨"poll_oneoff", some MemWidth.memory32⟩] ∧
    ((namesOf wasi_unstable_exports).filter fun n =>
        wasi_unstable_exports.lookup n != wasi_snapshot_preview1_exports.lookup n)
      = legacyNames ∧
    namesOf wasi_unstable_exports = namesOf wasi_snapshot_preview1_exports ∧
    sharedSameBinding wasi_unstable_exports wasi_snapshot_preview1_exports
      legacyNames = true := by
  refine ⟨by decide, by decide, by decide, by decide, by decide⟩

/-- C4: `wasix_32v1` and `wasix_64v1` export exactly the same entry-point
names, and every shared name is bound to the same underlying implementation
in both, with non-generic functions reused verbatim and width-generic
functions instantiated at `Memory32` and `Memory64` respectively. -/
theorem wasix_32_64_width_aligned :
    namesOf wasix_exports_32 = namesOf wasix_exports_64 ∧
    wasixWidthAligned = true := by
  refine ⟨by decide, by decide⟩

/-- C5: `mem_error_to_wasi` maps `HeapOutOfBounds` to `Fault`, `Overflow`
to `Overflow`, `NonUtf8String` to `Inval`, and every other cause (the `_`
fallback arm, represented by `Other`) to `Inval`; being a Lean function
covering every constructor it is total, deterministic and pure. -/
theorem mem_error_to_wasi_spec :
    mem_error_to_wasi MemoryAccessError.HeapOutOfBounds = Errno.Fault ∧
    mem_error_to_wasi MemoryAccessError.Overflow = Errno.Overflow ∧
    mem_error_to_wasi MemoryAccessError.NonUtf8String = Errno.Inval ∧
    mem_error_to_wasi MemoryAccessError.Other = Errno.Inval :=
  ⟨rfl, rfl, rfl, rfl⟩

/-- C6: `mem_error_to_bus` maps `HeapOutOfBounds` to `Memviolation`,
`Overflow` to `Memviolation`, `NonUtf8String` to `Badrequest`, and every
other cause (the `_` fallback arm, represented by `Other`) to `Unknown`. -/
theorem mem_error_to_bus_spec :
    mem_error_to_bus MemoryAccessError.HeapOutOfBounds = BusErrno.Memviolation ∧
    mem_error_to_bus MemoryAccessError.Overflow = BusErrno.Memviolation ∧
    mem_error_to_bus MemoryAccessError.NonUtf8String = BusErrno.Badrequest ∧
    mem_error_to_bus MemoryAccessError.Other = BusErrno.Unknown :=
  ⟨rfl, rfl, rfl, rfl⟩

/-- C9: across the four generations (in order `wasi_unstable`,
`wasi_snapshot_preview1`, `wasix_32v1`, `wasix_64v1`), every name that a
later generation shares with an earlier one is bound to the same underlying
implementation, except the four legacy bindings of `wasi_unstable`; and no
namespace exports the same name twice. -/
theorem cross_generation_binding_consistency :
    sharedSameImpl wasi_unstable_exports wasi_snapshot_preview1_exports
      legacyNames = true ∧
    sharedSameImpl wasi_unstable_exports wasix_exports_32 legacyNames = true ∧
    sharedSameImpl wasi_unstable_exports wasix_exports_64 legacyNames = true ∧
    sharedSameImpl wasi_snapshot_preview1_exports wasix_exports_32 [] = true ∧
    sharedSameImpl wasi_snapshot_preview1_exports wasix_exports_64 [] = true ∧
    sharedSameImpl wasix_exports_32 wasix_exports_64 [] = true ∧
    (namesOf wasi_unstable_exports).Nodup ∧
    (namesOf wasi_snapshot_preview1_exports).Nodup ∧
    (namesOf wasix_exports_32).Nodup ∧
    (namesOf wasix_exports_64).Nodup := by
  refine ⟨by decide, by decide, by decide, by decide, by decide, by decide,
    by decide, by decide, by decide, by decide⟩

/-- C10: `wasi_unstable` and `wasi_snapshot_preview1` export exactly the
same list of 45 entry-point names, and the bindings differ at exactly the
four legacy names. -/
theorem wasi_unstable_preview1_same_names :
    namesOf wasi_unstable_exports = namesOf wasi_snapshot_preview1_exports ∧
    (namesOf wasi_unstable_exports).length = 45 ∧
    ((namesOf wasi_unstable_exports).filter fun n =>
        wasi_unstable_exports.lookup n != wasi_snapshot_preview1_exports.lookup n)
      = legacyNames := by
  refine ⟨by decide, by decide, by decide⟩

/-- Closed form of the shared counter after `n` fresh-thread allocations:
`fetch_add` wraps at `2^32`, so the counter is `(seed + n) % 2^32`. -/
theorem finalSeedAfter_eq (n : Nat) :
    ∀ seed, seed < U32_LIMIT → finalSeedAfter n seed = (seed + n) % U32_LIMIT := by
  induction n with
  | zero =>
      intro seed h
      simp [finalSeedAfter, Nat.mod_eq_of_lt h]
  | succ n ih =>
      intro seed h
      have h1 : (current_caller_id ⟨seed, 0⟩).2.seed = (seed + 1) % U32_LIMIT := rfl
      rw [finalSeedAfter, h1, ih _ (Nat.mod_lt _ (by decide)), Nat.mod_add_mod]
      congr 1
      omega

/-- Closed form of the ids drawn by `n` fresh threads starting from counter
value `seed`: the `k`-th draw returns `(seed + k) % 2^32`. -/
theorem runFreshThreads_eq (n : Nat) :
    ∀ seed, seed < U32_LIMIT →
      runFreshThreads n seed
        = (List.range n).map fun k => (seed + k) % U32_LIMIT := by
  induction n with
  | zero => intro seed _; simp [runFreshThreads]
  | succ n ih =>
      intro seed h
      have h1 : (current_caller_id ⟨seed, 0⟩).1 = seed := rfl
      have h2 : (current_caller_id ⟨seed, 0⟩).2.seed = (seed + 1) % U32_LIMIT := rfl
      rw [runFreshThreads, h1, h2, ih _ (Nat.mod_lt _ (by decide)),
        List.range_succ_eq_map]
      simp only [List.map_cons, List.map_map, Nat.add_zero, Nat.mod_eq_of_lt h]
      refine congrArg _ ?_
      refine List.map_congr_left fun k _ => ?_
      simp only [Function.comp]
      rw [Nat.mod_add_mod]
      congr 1
      omega

/-- C7 counterexample: after `2^32 - 1` identities have been allocated the
shared counter has wrapped to `0`, so a fresh thread's first call of
`current_caller_id` (state: counter `0`, cell `0`) returns `0` — not at
least `1` — and caches `0`, whereupon the second call on the same thread
draws again and returns `1`, a different value. -/
theorem current_caller_id_wraparound_cex :
    finalSeedAfter (U32_LIMIT - 1) 1 = 0 ∧
    (current_caller_id ⟨0, 0⟩).1 = 0 ∧
    (current_caller_id (current_caller_id ⟨0, 0⟩).2).1 = 1 := by
  refine ⟨?_, by decide, by decide⟩
  rw [finalSeedAfter_eq _ 1 (by decide)]
  decide

/-- C7 as amended: provided the shared counter has not wrapped to `0`
(at least `1`, as it is from initialization until `2^32 - 1` identities
have been drawn), a call of `current_caller_id` returns the thread's cell
unchanged — leaving counter and cell untouched — when the cell is non-zero,
and otherwise draws the counter value, stores it in the cell and returns
it; the returned identity is at least `1`, and a second call on the same
thread returns the same value. -/
theorem current_caller_id_contract (s : CallerIdState) (h1 : 1 ≤ s.seed) :
    (s.cache ≠ 0 → current_caller_id s = (s.cache, s)) ∧
    (s.cache = 0 →
      current_caller_id s = (s.seed, ⟨(s.seed + 1) % U32_LIMIT, s.seed⟩)) ∧
    1 ≤ (current_caller_id s).1 ∧
    (current_caller_id (current_caller_id s).2).1 = (current_caller_id s).1 := by
  by_cases hc : s.cache = 0
  · refine ⟨fun h => absurd hc h, fun _ => ?_, ?_, ?_⟩
    · simp [current_caller_id, hc]
    · simp [current_caller_id, hc, h1]
    · have hs : s.seed ≠ 0 := by omega
      simp [current_caller_id, hc, hs]
  · refine ⟨fun _ => ?_, fun h => absurd h hc, ?_, ?_⟩
    · simp [current_caller_id, hc]
    · simp only [current_caller_id, if_neg hc]
      omega
    · simp [current_caller_id, hc]

/-- Witness for `current_caller_id_contract` at the concrete state with
counter `5` and an unassigned cell. -/
theorem current_caller_id_contract_witness :
    1 ≤ (5 : Nat) ∧
    current_caller_id ⟨5, 0⟩ = (5, ⟨(5 + 1) % U32_LIMIT, 5⟩) ∧
    (current_caller_id (current_caller_id ⟨5, 0⟩).2).1
      = (current_caller_id ⟨5, 0⟩).1 :=
  ⟨by decide, (current_caller_id_contract ⟨5, 0⟩ (by decide)).2.1 rfl,
    (current_caller_id_contract ⟨5, 0⟩ (by decide)).2.2.2⟩

/-- C8 counterexample: among `2^32 + 1` fresh threads (counter starting at
its initial value `1`), the first and the last draw the same identity `1`,
so the list of freshly allocated values is not duplicate-free: the `u32`
counter wraps and reissues identities. -/
theorem caller_id_reuse_after_wraparound_cex :
    (runFreshThreads (U32_LIMIT + 1) 1)[0]? = some 1 ∧
    (runFreshThreads (U32_LIMIT + 1) 1)[U32_LIMIT]? = some 1 ∧
    ¬ (runFreshThreads (U32_LIMIT + 1) 1).Nodup := by
  have hr := runFreshThreads_eq (U32_LIMIT + 1) 1 (by decide)
  refine ⟨?_, ?_, ?_⟩
  · rw [hr, List.getElem?_map,
      List.getElem?_range (show 0 < U32_LIMIT + 1 by decide)]
    decide
  · rw [hr, List.getElem?_map,
      List.getElem?_range (show U32_LIMIT < U32_LIMIT + 1 by decide)]
    decide
  · rw [hr]
    intro hnd
    have h01 : (1 + 0) % U32_LIMIT = (1 + U32_LIMIT) % U32_LIMIT := by decide
    have := List.inj_on_of_nodup_map hnd
      (List.mem_range.mpr (show 0 < U32_LIMIT + 1 by decide))
      (List.mem_range.mpr (show U32_LIMIT < U32_LIMIT + 1 by decide)) h01
    exact absurd this (by decide)

/-- C8 as amended: provided at most `2^32` identities are drawn (the counter
has not wrapped back over its start), `N` fresh threads, in whatever order
their atomic draws interleave, receive `N` pairwise-distinct identities;
identities are never reassigned (each list position is a fresh draw). -/
theorem runFreshThreads_nodup (N : Nat) (hN : N ≤ U32_LIMIT) :
    (runFreshThreads N 1).Nodup ∧ (runFreshThreads N 1).length = N := by
  rw [runFreshThreads_eq N 1 (by decide)]
  constructor
  · refine List.Nodup.map_on ?_ (List.nodup_range N)
    intro x hx y hy hxy
    rw [List.mem_range] at hx hy
    simp only [U32_LIMIT] at hxy hN
    omega
  · simp

/-- Witness for `runFreshThreads_nodup` with three fresh threads. -/
theorem runFreshThreads_nodup_witness :
    3 ≤ U32_LIMIT ∧ (runFreshThreads 3 1).Nodup ∧
      (runFreshThreads 3 1).length = 3 :=
  ⟨by decide, (runFreshThreads_nodup 3 (by decide)).1,
    (runFreshThreads_nodup 3 (by decide)).2⟩
